import Mathlib

/-!
Verification of `prime_numbers.py`: a trial-division primality tester
`is_prime`, an enumeration of the primes among 1..100, and a single
formatted output line.

The source reads:

  def is_prime(n):
      if n <= 1:
          return False
      for i in range(2, int(n**0.5) + 1):
          if n % i == 0:
              return False
      return True

  if __name__ == "__main__":
      primes = [n for n in range(1, 101) if is_prime(n)]
      print(f"Numerele prime până la 100 sunt: (primes)")

Python integers are arbitrary precision, so `n` is modelled as `Int`.
Two models of line 4's `int(n ** 0.5)` are used:

* `isqrt` (proved equal to `Nat.sqrt`), the exact integer square root.
  It coincides with the float computation on every value this program's
  run evaluates (`n ≤ 100`, where doubles represent `n` and its root
  exactly); the bounded claims are settled against it.  It is NOT a
  model of the float expression for arbitrary `n`: above `2^53` the
  float-derived bound can differ from the exact root (at `n = 2^64 - 1`
  the source iterates up to `2^32`, the exact root is `2^32 - 1`), and
  for `|n| ≥ 2^1024 - 2^970` the conversion of `n` to a double raises
  `OverflowError` so no bound is computed at all.
* `powHalfToInt` / `is_primeChecked`, a fallible model that makes both
  error paths of the source explicit — the `OverflowError` of the
  int-to-double conversion, with its exact integer threshold, and the
  `TypeError` of `int` applied to the complex value of a negative base
  raised to `0.5`.  The claims that quantify over all integers are
  settled against it.
-/

/-- Structural (kernel-computable) integer square root: the largest
`j ≤ k` with `j * j ≤ n`, found by scanning down from `k`. -/
def isqrtAux (n : Nat) : Nat → Nat
  | 0 => 0
  | k + 1 => if (k + 1) * (k + 1) ≤ n then k + 1 else isqrtAux n k

/-- The integer square root `⌊√n⌋`, modelling `int(n ** 0.5)` on
nonnegative input. -/
def isqrt (n : Nat) : Nat := isqrtAux n n

/-- The list of candidate divisors `range(2, int(n**0.5) + 1)` that the
loop of `is_prime` iterates over, with the exact integer square root as
the bound.  Faithful to the source's float-derived bound on the domain
this program evaluates (`n ≤ 100`); see the module comment for the
larger inputs on which the two differ. -/
def divisorRange (n : Int) : List Nat := List.range' 2 (isqrt n.toNat + 1 - 2)

/-- The `for i in range(...): if n % i == 0: return False` loop body of
`is_prime`, with the early `return False` as a short-circuit and the
final `return True` as the value on loop exhaustion. -/
def trialDiv (n : Int) : List Nat → Bool
  | [] => true
  | i :: rest => if n % (i : Int) = 0 then false else trialDiv n rest

/-- `is_prime(n)` from `prime_numbers.py`. -/
def is_prime (n : Int) : Bool :=
  if n ≤ 1 then false
  else trialDiv n (divisorRange n)

/-- `primes = [n for n in range(1, 101) if is_prime(n)]` from the
`__main__` block. -/
def primes : List Int :=
  ((List.range' 1 100).map (fun m => (m : Int))).filter (fun n => is_prime n)

/-- Python's textual rendering of a list of integers:
`[a, b, ..., z]`. -/
def pyListRepr (l : List Int) : String :=
  "[" ++ String.intercalate ", " (l.map (fun n => toString n)) ++ "]"

/-- The single line the program prints: the f-string
`f"Numerele prime până la 100 sunt: (primes)"` with the interpolation
spelled out, followed by the newline `print` appends. -/
def programOutput : String :=
  "Numerele prime până la 100 sunt: " ++ pyListRepr primes ++ "\n"

/- Correctness of `isqrt` against Mathlib's `Nat.sqrt`. -/

theorem isqrtAux_le (n : Nat) : ∀ k, isqrtAux n k ≤ k := by
  intro k
  induction k with
  | zero => simp [isqrtAux]
  | succ k ih =>
    unfold isqrtAux
    split
    · exact Nat.le_refl _
    · exact Nat.le_succ_of_le ih

theorem isqrtAux_sq_le (n : Nat) : ∀ k, isqrtAux n k * isqrtAux n k ≤ n := by
  intro k
  induction k with
  | zero => simp [isqrtAux]
  | succ k ih =>
    unfold isqrtAux
    split
    · assumption
    · exact ih

theorem le_isqrtAux (n : Nat) :
    ∀ k j, j ≤ k → j * j ≤ n → j ≤ isqrtAux n k := by
  intro k
  induction k with
  | zero => intro j hj _; simpa [isqrtAux] using hj
  | succ k ih =>
    intro j hj hsq
    unfold isqrtAux
    split
    · exact hj
    · rcases Nat.lt_or_ge j (k + 1) with h | h
      · exact ih j (Nat.lt_succ_iff.mp h) hsq
      · exact absurd (Nat.le_trans (Nat.mul_le_mul h h) hsq) (by assumption)

/-- `isqrt` computes exactly `Nat.sqrt`. -/
theorem isqrt_eq_sqrt (n : Nat) : isqrt n = Nat.sqrt n := by
  rw [Nat.eq_sqrt]
  constructor
  · exact isqrtAux_sq_le n n
  · by_contra h
    push_neg at h
    have h1 : isqrt n + 1 ≤ n := Nat.le_trans (Nat.le_mul_of_pos_left _ (Nat.succ_pos _)) h
    have h2 : isqrt n + 1 ≤ isqrtAux n n :=
      le_isqrtAux n n (isqrt n + 1) h1 h
    exact absurd h2 (by simp [isqrt])

/- The loop returns true exactly when no listed candidate divides `n`. -/

theorem trialDiv_eq_true_iff (n : Int) (l : List Nat) :
    trialDiv n l = true ↔ ∀ i ∈ l, ¬ ((i : Int) ∣ n) := by
  induction l with
  | nil => simp [trialDiv]
  | cons i rest ih =>
    show (if n % (i : Int) = 0 then false else trialDiv n rest) = true ↔ _
    by_cases h : n % (i : Int) = 0
    · rw [if_pos h]
      constructor
      · intro hf; cases hf
      · intro H
        exact absurd (Int.dvd_iff_emod_eq_zero.mpr h) (H i (List.mem_cons_self i rest))
    · rw [if_neg h, ih]
      constructor
      · intro H j hj
        rcases List.mem_cons.mp hj with rfl | hj'
        · exact fun hd => h (Int.dvd_iff_emod_eq_zero.mp hd)
        · exact H j hj'
      · intro H j hj
        exact H j (List.mem_cons_of_mem i hj)

theorem one_le_isqrt {m : Nat} (h : 1 ≤ m) : 1 ≤ isqrt m :=
  le_isqrtAux m m 1 h (by simpa using h)

theorem mem_divisorRange {n : Int} (h : 1 < n) (i : Nat) :
    i ∈ divisorRange n ↔ 2 ≤ i ∧ i ≤ isqrt n.toNat := by
  have h1 : 1 ≤ isqrt n.toNat := one_le_isqrt (by omega)
  simp only [divisorRange, List.mem_range'_1]
  omega

theorem is_prime_eq_true_iff {n : Int} (h : 1 < n) :
    is_prime n = true ↔
      ∀ i : Int, 2 ≤ i → i ≤ (isqrt n.toNat : Int) → ¬ i ∣ n := by
  have hn : ¬ n ≤ 1 := by omega
  rw [is_prime, if_neg hn, trialDiv_eq_true_iff]
  constructor
  · intro H i h2 hle hdvd
    have hi0 : 0 ≤ i := by omega
    obtain ⟨m, rfl⟩ := Int.eq_ofNat_of_zero_le hi0
    refine H m ?_ hdvd
    rw [mem_divisorRange h]
    exact ⟨by exact_mod_cast h2, by exact_mod_cast hle⟩
  · intro H i hi
    rw [mem_divisorRange h] at hi
    exact H i (by exact_mod_cast hi.1) (by exact_mod_cast hi.2)

theorem is_prime_iff_natPrime {n : Int} (h : 1 < n) :
    is_prime n = true ↔ Nat.Prime n.toNat := by
  rw [is_prime_eq_true_iff h, Nat.prime_def_le_sqrt]
  constructor
  · intro H
    refine ⟨by omega, fun m hm2 hmsqrt hdvd => ?_⟩
    refine H m (by exact_mod_cast hm2) ?_ ?_
    · rw [isqrt_eq_sqrt]; exact_mod_cast hmsqrt
    · have hd : (m : Int) ∣ (n.toNat : Int) := Int.natCast_dvd_natCast.mpr hdvd
      rwa [Int.toNat_of_nonneg (by omega)] at hd
  · rintro ⟨-, H⟩ i h2 hle hdvd
    have hi0 : 0 ≤ i := by omega
    obtain ⟨m, rfl⟩ := Int.eq_ofNat_of_zero_le hi0
    refine H m (by exact_mod_cast h2) ?_ ?_
    · rw [isqrt_eq_sqrt] at hle; exact_mod_cast hle
    · have hd : (m : Int) ∣ (n.toNat : Int) := by
        rwa [Int.toNat_of_nonneg (by omega)]
      exact_mod_cast hd

/-- Mathematical primality, following the spec's glossary: an integer
greater than 1 with no positive divisors other than 1 and itself. -/
def mathPrime (n : Int) : Prop :=
  1 < n ∧ ∀ d : Int, 0 < d → d ∣ n → d = 1 ∨ d = n

theorem mathPrime_iff_natPrime {n : Int} (h : 1 < n) :
    mathPrime n ↔ Nat.Prime n.toNat := by
  rw [Nat.prime_def]
  constructor
  · rintro ⟨h1, H⟩
    refine ⟨by omega, fun m hm => ?_⟩
    rcases Nat.eq_zero_or_pos m with rfl | hm0
    · have : n.toNat = 0 := Nat.eq_zero_of_zero_dvd hm
      omega
    · have hd : (m : Int) ∣ n := by
        have hc : (m : Int) ∣ (n.toNat : Int) := Int.natCast_dvd_natCast.mpr hm
        rwa [Int.toNat_of_nonneg (by omega)] at hc
      rcases H m (by exact_mod_cast hm0) hd with h1' | h2'
      · left; exact_mod_cast h1'
      · right
        have : (m : Int) = (n.toNat : Int) := by
          rw [h2', Int.toNat_of_nonneg (by omega)]
        exact_mod_cast this
  · rintro ⟨h2, H⟩
    refine ⟨h, fun d hd0 hdvd => ?_⟩
    obtain ⟨m, rfl⟩ := Int.eq_ofNat_of_zero_le (le_of_lt hd0)
    have hmn : m ∣ n.toNat := by
      have hc : (m : Int) ∣ (n.toNat : Int) := by
        rwa [Int.toNat_of_nonneg (by omega)]
      exact_mod_cast hc
    rcases H m hmn with h1' | h2'
    · left; exact_mod_cast h1'
    · right
      rw [h2', Int.toNat_of_nonneg (by omega)]

/-- Smallest magnitude at which converting a Python `int` to an IEEE-754
double overflows: integers of magnitude at least `2^1024 - 2^970` round
(ties to even) past the largest finite double `2^1024 - 2^971`, and
CPython's conversion raises `OverflowError`. -/
def floatMaxThreshold : Int := 2 ^ 1024 - 2 ^ 970

/-- Modelling of `int(n ** 0.5)` as a fallible computation with both of
the source's error paths.  Evaluating `n ** 0.5` first converts `n` to a
double, which raises `OverflowError` when `|n| ≥ floatMaxThreshold`; a
negative representable base yields a complex value under `** 0.5` and
applying `int` to it raises `TypeError`; otherwise the rounded root is
modelled as the exact integer square root, which matches the float
computation on the domain this program evaluates. -/
def powHalfToInt (n : Int) : Except String Nat :=
  if n ≤ -floatMaxThreshold ∨ floatMaxThreshold ≤ n then
    Except.error "OverflowError: int too large to convert to float"
  else if n < 0 then Except.error "TypeError: cannot convert complex to int"
  else Except.ok (isqrt n.toNat)

/-- `is_prime` with its potential error paths made explicit: the fallible
root computation is evaluated only on the `n > 1` branch, and an error
there propagates out as an exception. -/
def is_primeChecked (n : Int) : Except String Bool :=
  if n ≤ 1 then Except.ok false
  else
    match powHalfToInt n with
    | Except.error e => Except.error e
    | Except.ok r => Except.ok (trialDiv n (List.range' 2 (r + 1 - 2)))

theorem is_primeChecked_eq_ok (n : Int) (h : n < floatMaxThreshold) :
    is_primeChecked n = Except.ok (is_prime n) := by
  by_cases h1 : n ≤ 1
  · simp [is_primeChecked, is_prime, h1]
  · have hT : (0 : Int) < floatMaxThreshold := by norm_num [floatMaxThreshold]
    have ho : ¬ (n ≤ -floatMaxThreshold ∨ floatMaxThreshold ≤ n) := by
      push_neg
      omega
    have h0 : ¬ n < 0 := by omega
    simp [is_primeChecked, is_prime, h1, powHalfToInt, ho, h0, divisorRange]

theorem is_primeChecked_overflow {n : Int} (h1 : 1 < n)
    (h : floatMaxThreshold ≤ n) :
    is_primeChecked n
      = Except.error "OverflowError: int too large to convert to float" := by
  have h2 : ¬ n ≤ 1 := by omega
  have hc : n ≤ -floatMaxThreshold ∨ floatMaxThreshold ≤ n := Or.inr h
  simp [is_primeChecked, powHalfToInt, h2, hc]

/-- Two sequential calls of the (fallible) primality tester on the same
input, propagating any exception, collecting both results. -/
def callTwice (n : Int) : Except String (Bool × Bool) :=
  match is_primeChecked n with
  | Except.error e => Except.error e
  | Except.ok a =>
    match is_primeChecked n with
    | Except.error e => Except.error e
    | Except.ok b => Except.ok (a, b)

/-- The divisor loop with an explicit iteration budget: `none` means the
budget was exhausted before the loop finished. -/
def trialDivFuel (n : Int) : Nat → List Nat → Option Bool
  | _, [] => some true
  | 0, _ :: _ => none
  | fuel + 1, i :: rest =>
    if n % (i : Int) = 0 then some false else trialDivFuel n fuel rest

theorem trialDivFuel_complete (n : Int) :
    ∀ (l : List Nat) (fuel : Nat), l.length ≤ fuel →
      trialDivFuel n fuel l = some (trialDiv n l) := by
  intro l
  induction l with
  | nil => intro fuel _; cases fuel <;> rfl
  | cons i rest ih =>
    intro fuel hf
    match fuel with
    | 0 => exact absurd hf (by simp)
    | f + 1 =>
      show (if n % (i : Int) = 0 then some false else trialDivFuel n f rest)
          = some (if n % (i : Int) = 0 then false else trialDiv n rest)
      by_cases h : n % (i : Int) = 0
      · rw [if_pos h, if_pos h]
      · rw [if_neg h, if_neg h, ih f (by simp at hf; omega)]

/-- Claim C1, corrected: the original claim quantifies over every
`n > 1`, but at `n = 2^2000`, which has the divisor `2` in
`[2, ⌊√n⌋]`, the source raises `OverflowError` inside `int(n**0.5)`
instead of returning false (see the counterexample below).  Amended to
the domain this program evaluates, `1 < n ≤ 100`, where `int(n**0.5)`
is exactly the true integer square root: there `is_prime n` is true if
and only if no integer in `[2, ⌊√n⌋]` (with `⌊√n⌋` stated as
`Nat.sqrt`) evenly divides `n`. -/
theorem is_prime_iff_no_divisor_in_sqrt_range (n : Int) (h1 : 1 < n)
    (h2 : n ≤ 100) :
    is_prime n = true ↔
      ∀ i : Int, 2 ≤ i → i ≤ (Nat.sqrt n.toNat : Int) → ¬ i ∣ n := by
  rw [← isqrt_eq_sqrt]
  exact is_prime_eq_true_iff h1

/-- Witness for C1 at `n = 7`. -/
theorem is_prime_iff_no_divisor_in_sqrt_range_witness :
    (1 : Int) < 7 ∧ (7 : Int) ≤ 100 ∧
      (is_prime 7 = true ↔
        ∀ i : Int, 2 ≤ i → i ≤ (Nat.sqrt (7 : Int).toNat : Int) → ¬ i ∣ 7) :=
  ⟨by decide, by decide,
    is_prime_iff_no_divisor_in_sqrt_range 7 (by decide) (by decide)⟩

/-- Counterexample to C1 as stated: `2^2000` exceeds `1`, has the
divisor `2` within `[2, ⌊√(2^2000)⌋]`, yet the checked evaluator raises
`OverflowError` (as the source does) instead of returning false. -/
theorem is_prime_overflow_counterexample :
    (1 : Int) < 2 ^ 2000 ∧ (2 : Int) ∣ 2 ^ 2000 ∧
      2 ≤ Nat.sqrt ((2 : Int) ^ 2000).toNat ∧
      is_primeChecked ((2 : Int) ^ 2000)
        = Except.error "OverflowError: int too large to convert to float" := by
  refine ⟨by norm_num, ⟨2 ^ 1999, by ring⟩, ?_,
    is_primeChecked_overflow (by norm_num) (by norm_num [floatMaxThreshold])⟩
  have hcast : ((2 : Int) ^ 2000) = ((2 ^ 2000 : Nat) : Int) := by
    push_cast
    ring
  rw [hcast, Int.toNat_natCast, Nat.le_sqrt]
  calc 2 * 2 = 2 ^ 2 := by norm_num
    _ ≤ 2 ^ 2000 := Nat.pow_le_pow_right (by norm_num) (by norm_num)

/-- Claim C2: the enumeration over `1..100` yields exactly the 25 primes
up to 100, in scan order. -/
theorem primes_upto_100_eq :
    primes = [2, 3, 5, 7, 11, 13, 17, 19, 23, 29, 31, 37, 41, 43, 47, 53,
      59, 61, 67, 71, 73, 79, 83, 89, 97] := by decide

/-- Claim C3: `is_prime n` is false for every integer `n ≤ 1`, zero and
negative integers included. -/
theorem is_prime_le_one (n : Int) (h : n ≤ 1) : is_prime n = false := by
  simp [is_prime, h]

/-- Witness for C3 at `n = -5`. -/
theorem is_prime_le_one_witness :
    (-5 : Int) ≤ 1 ∧ is_prime (-5) = false :=
  ⟨by decide, is_prime_le_one (-5) (by decide)⟩

/-- Claim C4: every element of the Prime Result Set satisfies the
primality predicate, and the list is strictly increasing. -/
theorem primes_all_prime_and_strictly_increasing :
    (∀ x ∈ primes, is_prime x = true) ∧
      List.Pairwise (fun a b => a < b) primes := by
  constructor
  · decide
  · decide

/-- Witness for C4 at the element `2`. -/
theorem primes_all_prime_and_strictly_increasing_witness :
    (2 : Int) ∈ primes ∧ is_prime 2 = true :=
  ⟨by decide, primes_all_prime_and_strictly_increasing.1 2 (by decide)⟩

/-- Claim C5: the program writes exactly one line to standard output: the
label followed by the textual rendering of the 25-element prime list, and
nothing else (the full output equals that single newline-terminated
string, which contains exactly one newline). -/
theorem program_output_single_line :
    programOutput =
      "Numerele prime până la 100 sunt: [2, 3, 5, 7, 11, 13, 17, 19, 23, 29, 31, 37, 41, 43, 47, 53, 59, 61, 67, 71, 73, 79, 83, 89, 97]\n" ∧
      (programOutput.data.filter (fun c => c = '\n')).length = 1 := by
  constructor
  · decide
  · decide

/-- Claim C6: the boundary values `1, 2, 4, 97, 100`. -/
theorem is_prime_boundary_values :
    is_prime 1 = false ∧ is_prime 2 = true ∧ is_prime 4 = false ∧
      is_prime 97 = true ∧ is_prime 100 = false := by
  decide

/-- Claim C7, corrected: the original claim of totality over every
integer fails — at `n = 2^2000` the int-to-double conversion inside
`n ** 0.5` raises `OverflowError` (counterexample below).  Amended: for
every integer `n` below the float-overflow threshold — zero and all
negative integers included, since the `n ≤ 1` branch fires before any
float is computed and so keeps negative bases away from the fractional
power — `is_prime` returns a boolean and never an exception. -/
theorem is_prime_total_no_error (n : Int) (h : n < floatMaxThreshold) :
    ∃ b : Bool, is_primeChecked n = Except.ok b :=
  ⟨is_prime n, is_primeChecked_eq_ok n h⟩

/-- Witness for C7 at `n = -5`. -/
theorem is_prime_total_no_error_witness :
    (-5 : Int) < floatMaxThreshold ∧
      ∃ b : Bool, is_primeChecked (-5) = Except.ok b :=
  ⟨by norm_num [floatMaxThreshold],
    is_prime_total_no_error (-5) (by norm_num [floatMaxThreshold])⟩

/-- Counterexample to C7 as stated: at `n = 2^2000` the source raises
`OverflowError` rather than returning a boolean. -/
theorem is_prime_total_no_error_counterexample :
    is_primeChecked ((2 : Int) ^ 2000)
      = Except.error "OverflowError: int too large to convert to float" :=
  is_primeChecked_overflow (by norm_num) (by norm_num [floatMaxThreshold])

/-- Claim C8, corrected: two sequential calls on the same `n` yield
identical outcomes — whenever the two calls return booleans the booleans
are equal, and when the first call raises, the second run raises the
identical error (no hidden state affects the second run).  The original
wording's implication that every `n` yields a boolean result fails at
`n = 2^2000`, where both calls raise `OverflowError` (counterexample
below). -/
theorem is_prime_deterministic_twice (n : Int) :
    (∀ a b : Bool, callTwice n = Except.ok (a, b) → a = b) ∧
      (∀ e : String, is_primeChecked n = Except.error e →
        callTwice n = Except.error e) := by
  constructor
  · intro a b hab
    unfold callTwice at hab
    cases hck : is_primeChecked n with
    | error e => rw [hck] at hab; cases hab
    | ok c => rw [hck] at hab; cases hab; rfl
  · intro e he
    unfold callTwice
    rw [he]

/-- Witness for C8 at `n = 7`: the hypothesis of the first conjunct is
discharged by computing both calls. -/
theorem is_prime_deterministic_twice_witness :
    callTwice 7 = Except.ok (true, true) ∧ true = true := by
  have h7 : is_primeChecked 7 = Except.ok true := by
    rw [is_primeChecked_eq_ok 7 (by norm_num [floatMaxThreshold]),
      show is_prime 7 = true from by decide]
  have hc : callTwice 7 = Except.ok (true, true) := by
    unfold callTwice
    rw [h7]
  exact ⟨hc, (is_prime_deterministic_twice 7).1 true true hc⟩

/-- Counterexample to C8 as stated: at `n = 2^2000` the two calls do not
yield boolean results — the run raises `OverflowError`. -/
theorem is_prime_deterministic_twice_counterexample :
    callTwice ((2 : Int) ^ 2000)
      = Except.error "OverflowError: int too large to convert to float" := by
  unfold callTwice
  rw [is_primeChecked_overflow (by norm_num) (by norm_num [floatMaxThreshold])]

/-- Claim C9: on `1 ≤ n ≤ 100` the trial-division test agrees exactly
with the reference mathematical definition of primality (an integer
greater than 1 with no positive divisors other than 1 and itself). -/
theorem is_prime_agrees_with_mathPrime (n : Int) (h1 : 1 ≤ n) (h2 : n ≤ 100) :
    is_prime n = true ↔ mathPrime n := by
  by_cases hn : 1 < n
  · rw [is_prime_iff_natPrime hn, ← mathPrime_iff_natPrime hn]
  · have h : n = 1 := by omega
    subst h
    constructor
    · intro hF; exact absurd hF (by decide)
    · rintro ⟨h1', -⟩; omega

/-- Witness for C9 at `n = 97`. -/
theorem is_prime_agrees_with_mathPrime_witness :
    (1 : Int) ≤ 97 ∧ (97 : Int) ≤ 100 ∧ (is_prime 97 = true ↔ mathPrime 97) :=
  ⟨by decide, by decide,
    is_prime_agrees_with_mathPrime 97 (by decide) (by decide)⟩

/-- Claim C10, corrected: "always returns" fails at `n = 2^2000`, where
the source raises `OverflowError` before the loop (counterexample
below), and above `2^53` the float-derived range can be longer than
`⌊√n⌋ + 1 - 2` (at `n = 2^64 - 1` the source iterates up to `2^32`).
Amended to the domain this program evaluates: for every integer
`n ≤ 100` the divisor loop runs over a finite list of exactly
`⌊√n⌋ + 1 - 2` candidates, completes within an iteration budget of that
size, and `is_prime` returns the resulting boolean without raising. -/
theorem is_prime_loop_terminates_bounded (n : Int) (h : n ≤ 100) :
    (divisorRange n).length = isqrt n.toNat + 1 - 2 ∧
      trialDivFuel n (isqrt n.toNat + 1 - 2) (divisorRange n)
        = some (trialDiv n (divisorRange n)) ∧
      is_primeChecked n = Except.ok (is_prime n) := by
  refine ⟨by simp [divisorRange], ?_, ?_⟩
  · exact trialDivFuel_complete n (divisorRange n) _ (by simp [divisorRange])
  · refine is_primeChecked_eq_ok n ?_
    have hT : (100 : Int) < floatMaxThreshold := by norm_num [floatMaxThreshold]
    omega

/-- Witness for C10 at `n = 97`. -/
theorem is_prime_loop_terminates_bounded_witness :
    (97 : Int) ≤ 100 ∧
      ((divisorRange 97).length = isqrt (97 : Int).toNat + 1 - 2 ∧
        trialDivFuel 97 (isqrt (97 : Int).toNat + 1 - 2) (divisorRange 97)
          = some (trialDiv 97 (divisorRange 97)) ∧
        is_primeChecked 97 = Except.ok (is_prime 97)) :=
  ⟨by decide, is_prime_loop_terminates_bounded 97 (by decide)⟩

/-- Counterexample to C10 as stated: at `n = 2^2000` the function does
not return — the run raises `OverflowError` before the loop starts. -/
theorem is_prime_loop_terminates_bounded_counterexample :
    (1 : Int) < 2 ^ 2000 ∧
      is_primeChecked ((2 : Int) ^ 2000)
        ≠ Except.ok true ∧
      is_primeChecked ((2 : Int) ^ 2000)
        ≠ Except.ok false := by
  have he := is_primeChecked_overflow (n := (2 : Int) ^ 2000)
    (by norm_num) (by norm_num [floatMaxThreshold])
  refine ⟨by norm_num, ?_, ?_⟩ <;> simp [he]
